import Mathlib

/-!
Verification of the GM1356 USB decibel-meter logger (`main.go`) against its
specification.

The embedding below follows the Go source closely:

* Bytes are modelled as `Nat` (theorems restrict to `b < 256` where the claim
  quantifies over byte values).  Machine arithmetic on `uint16` never
  overflows here because the two source bytes are below 256.
* The `float64` field `Measured` is modelled as an exact rational: the source
  computes `float64((uint16(buf[0])<<8)|uint16(buf[1])) / 10.0`, so the value
  is a nonnegative integer below 65536 divided by 10; such values and the
  division are exact at this scale, and `%.1f` rendering is decimal-exact.
* `time.Now()` inside `parseDecibelData` is modelled by passing the formatted
  timestamp string explicitly.
* Device I/O (`hid.Device.Write` / `hid.Device.Read`) is modelled by the
  outcome the device returns in one iteration: a byte count and an error flag
  for the write, and an error flag, byte count and data bytes for the read.
* The 8-byte read buffer `buf` is allocated once outside the polling loop in
  the source, so bytes beyond the last read length survive between
  iterations; the loop model threads the buffer state explicitly.
-/

namespace GM1356

/-- The fixed 8-byte capture command `commandCapture` from `main.go`:
`0xB3` followed by seven zero bytes. -/
def commandCapture : List Nat := [0xB3, 0, 0, 0, 0, 0, 0, 0]

/-- `DecibelReading` from `main.go`.  `measured` is the exact rational value
of the `float64` field (see the module comment). -/
structure DecibelReading where
  timestamp : String
  measured : ℚ
  mode : String
  freqMode : String
  range : String
deriving DecidableEq, Repr

/-- `rangeMap` from `main.go`: the Go map lookup `rangeMap[k]`, returning
`none` when the key is absent. -/
def rangeMap (k : Nat) : Option String :=
  if k = 0x0 then some "30-130"
  else if k = 0x1 then some "30-80"
  else if k = 0x2 then some "50-100"
  else if k = 0x3 then some "60-110"
  else if k = 0x4 then some "80-130"
  else none

/-- `parseMode` from `main.go`: bit `0x40` selects fast, otherwise slow. -/
def parseMode (b : Nat) : String :=
  if b &&& 0x40 ≠ 0 then "fast" else "slow"

/-- `parseFreqMode` from `main.go`: bit `0x10` or bit `0x80` selects dBC,
otherwise dBA. -/
def parseFreqMode (b : Nat) : String :=
  if b &&& 0x10 ≠ 0 ∨ b &&& 0x80 ≠ 0 then "dBC" else "dBA"

/-- `parseRange` from `main.go`: look up the low nibble in `rangeMap`,
defaulting to `"unknown"`. -/
def parseRange (b : Nat) : String :=
  match rangeMap (b &&& 0x0F) with
  | some s => s
  | none => "unknown"

/-- `parseDecibelData` from `main.go`.  `now` is the formatted value of
`time.Now().UTC().Format(...)` at the moment of the call. -/
def parseDecibelData (buf : List Nat) (now : String) : DecibelReading :=
  let measured : ℚ := ((((buf.getD 0 0) <<< 8) ||| (buf.getD 1 0) : Nat) : ℚ) / 10
  { timestamp := now
    measured := measured
    mode := parseMode (buf.getD 2 0)
    freqMode := parseFreqMode (buf.getD 2 0)
    range := parseRange (buf.getD 2 0) }

/-- `sendCommand` from `main.go` returns a non-nil error exactly when the
device write errored or transferred a byte count different from 8.  `writeN`
and `writeErr` are the count and error flag the device write returned. -/
def sendCommandFails (writeN : Nat) (writeErr : Bool) : Bool :=
  writeErr || writeN != 8

/-- Effect of `device.Read(buf)` on the 8-byte buffer: the first `n` bytes
are overwritten with the data the device delivered, the rest keep their old
contents. -/
def fillBuf (old data : List Nat) (n : Nat) : List Nat :=
  data.take n ++ old.drop n

/-- `readCurrentMode` from `main.go`, as a function of the device outcomes:
`sendFail` is whether `sendCommand` returned an error, `readErr`/`readN`/
`readData` describe the device read.  Returns the (mode, freqMode, range)
triple and whether a non-nil error was returned.  The local buffer is a fresh
zeroed 8-byte slice. -/
def readCurrentMode (sendFail readErr : Bool) (readN : Nat) (readData : List Nat) :
    (String × String × String) × Bool :=
  if sendFail then (("unknown", "unknown", "unknown"), true)
  else if readErr = true ∨ readN < 6 then (("unknown", "unknown", "unknown"), true)
  else
    let buf := fillBuf (List.replicate 8 0) readData readN
    let b2 := buf.getD 2 0
    ((parseMode b2, parseFreqMode b2, parseRange b2), false)

/-- Device outcomes for one iteration of the polling loop in
`readDecibelData`, plus the formatted wall-clock time at decode. -/
structure IterInput where
  writeN : Nat
  writeErr : Bool
  readErr : Bool
  readN : Nat
  readData : List Nat
  now : String
deriving Repr

/-- Observable result of one iteration of the polling loop: the buffer after
the iteration, the Reading printed as JSON (if any), the CSV row written (if
any), and whether `log.Printf` emitted an error diagnostic. -/
structure IterResult where
  buf : List Nat
  published : Option DecibelReading
  csvRow : Option (List String)
  errorLogged : Bool
deriving Repr

/-- Rendering of `fmt.Sprintf` with verb `%.1f` applied to `measured`.  Every
`measured` this program produces is a nonnegative multiple of 1/10 below
6553.6, for which `%.1f` prints the exact decimal: integer part, a dot, and
one fractional digit. -/
def formatMeasured (q : ℚ) : String :=
  let n : Nat := (q * 10).num.toNat
  toString (n / 10) ++ "." ++ toString (n % 10)

/-- The CSV row written for one reading in `readDecibelData`:
`{data.Timestamp, fmt.Sprintf("%.1f", data.Measured), data.Mode,
data.FreqMode, data.Range}`. -/
def csvRowOf (d : DecibelReading) : List String :=
  [d.timestamp, formatMeasured d.measured, d.mode, d.freqMode, d.range]

/-- One iteration of the `default` branch of the polling loop in
`readDecibelData` (`main.go`): send the capture command; on failure log and
continue; read; on error log and continue; if at least one byte was read,
decode the buffer and publish to stdout and (when enabled) the CSV writer;
a zero-byte read publishes nothing and logs nothing. -/
def readDecibelIter (csvEnabled : Bool) (buf : List Nat) (inp : IterInput) : IterResult :=
  if sendCommandFails inp.writeN inp.writeErr then
    ⟨buf, none, none, true⟩
  else if inp.readErr then
    ⟨buf, none, none, true⟩
  else
    let newBuf := fillBuf buf inp.readData inp.readN
    if 0 < inp.readN then
      let d := parseDecibelData newBuf inp.now
      ⟨newBuf, some d, if csvEnabled then some (csvRowOf d) else none, false⟩
    else
      ⟨newBuf, none, none, false⟩

/-- The polling loop of `readDecibelData`, run over a finite trace of device
outcomes (the stop channel ends the trace); returns the Readings published,
in order.  The buffer persists across iterations as in the source. -/
def readDecibelLoop (csvEnabled : Bool) : List Nat → List IterInput → List DecibelReading
  | _, [] => []
  | buf, inp :: rest =>
    let r := readDecibelIter csvEnabled buf inp
    r.published.toList ++ readDecibelLoop csvEnabled r.buf rest

/-- The header row written by `setupCSVLog` when the file is new. -/
def csvHeader : List String := ["timestamp", "measured", "mode", "freqMode", "range"]

/-- File contents after `setupCSVLog` (`main.go`): the file is opened for
append; the header row is written only when the file did not previously
exist.  `existing` is `none` for a fresh path and `some rows` for the prior
contents of an existing file. -/
def setupCSVLog (existing : Option (List (List String))) : List (List String) :=
  match existing with
  | none => [csvHeader]
  | some rows => rows

/-- File contents after opening the log with `setupCSVLog` and appending one
CSV row per published reading, in publication order. -/
def logReadings (existing : Option (List (List String))) (rs : List DecibelReading) :
    List (List String) :=
  rs.foldl (fun acc d => acc ++ [csvRowOf d]) (setupCSVLog existing)

/-- Bitwise-or of a multiple of `2 ^ k` with a value below `2 ^ k` is their
sum. -/
lemma mul_two_pow_lor_eq_add : ∀ (k a b : ℕ), b < 2 ^ k → a * 2 ^ k ||| b = a * 2 ^ k + b := by
  intro k
  induction k with
  | zero =>
    intro a b hb
    interval_cases b
    simp
  | succ k ih =>
    intro a b hb
    have hdiv : b.div2 < 2 ^ k := by
      rw [Nat.div2_val, Nat.div_lt_iff_lt_mul (by norm_num)]
      calc b < 2 ^ (k + 1) := hb
        _ = 2 ^ k * 2 := by ring
    have h1 : a * 2 ^ (k + 1) = Nat.bit false (a * 2 ^ k) := by
      simp [Nat.bit]
      ring
    have h2 : Nat.bit false (a * 2 ^ k) ||| Nat.bit b.bodd b.div2 =
        Nat.bit b.bodd (a * 2 ^ k ||| b.div2) := by
      simpa using Nat.lor_bit false (a * 2 ^ k) b.bodd b.div2
    have h3 := Nat.bodd_add_div2 b
    conv_lhs => rw [← Nat.bit_decomp b]
    rw [h1, h2, ih a b.div2 hdiv]
    clear h1 h2
    have hp : (2 : ℕ) ^ (k + 1) = 2 ^ k * 2 := by ring
    cases hB : b.bodd <;> rw [hB] at h3 <;>
      simp only [Nat.bit, hp, cond_true, cond_false, Bool.toNat_false, Bool.toNat_true] at h3 ⊢ <;>
      omega

/-- The big-endian byte pair `(hi, lo)` assembled with shift and or equals
`256 * hi + lo` when `lo` is a byte. -/
lemma shiftLeft_lor_byte (hi lo : Nat) (hlo : lo < 256) :
    (hi <<< 8) ||| lo = 256 * hi + lo := by
  rw [Nat.shiftLeft_eq]
  rw [mul_two_pow_lor_eq_add 8 hi lo (by omega)]
  ring

/-- Folding row-append over a list of readings appends the mapped rows. -/
lemma foldl_append_rows (f : DecibelReading → List String) :
    ∀ (rs : List DecibelReading) (init : List (List String)),
      rs.foldl (fun acc d => acc ++ [f d]) init = init ++ rs.map f := by
  intro rs
  induction rs with
  | nil => intro init; simp
  | cons d rest ih =>
    intro init
    simp only [List.foldl_cons, List.map_cons]
    rw [ih]
    simp

end GM1356

namespace GM1356

/-- C1 counterexample: the frame `[0x01, 0xC2, 0x91, ...]` carries the
big-endian magnitude `0x01C2 = 450`, so its decoded `measured` is `45.0`,
not `45.3` as the claim states. -/
theorem C1_frame_counterexample :
    (parseDecibelData [0x01, 0xC2, 0x91, 0, 0, 0, 0, 0] "2025-03-01 05:04:00 UTC").measured ≠
      453 / 10 := by
  show ((((1 <<< 8) ||| 194 : Nat) : ℚ)) / 10 ≠ 453 / 10
  norm_num [show ((1 <<< 8) ||| 194 : Nat) = 450 from by decide]

/-- C1 (amended): decoding the 8-byte frame whose first three bytes are
`[0x01, 0xC2, 0x91]` yields `measured = 45.0` (raw `0x01C2 = 450`),
`mode = "slow"`, `freqMode = "dBC"`, and `range = "30-80"`, for any
wall-clock timestamp. -/
theorem C1_frame_decodes (t : String) :
    (parseDecibelData [0x01, 0xC2, 0x91, 0, 0, 0, 0, 0] t).measured = 45 ∧
    (parseDecibelData [0x01, 0xC2, 0x91, 0, 0, 0, 0, 0] t).mode = "slow" ∧
    (parseDecibelData [0x01, 0xC2, 0x91, 0, 0, 0, 0, 0] t).freqMode = "dBC" ∧
    (parseDecibelData [0x01, 0xC2, 0x91, 0, 0, 0, 0, 0] t).range = "30-80" := by
  refine ⟨?_, rfl, rfl, rfl⟩
  show ((((1 <<< 8) ||| 194 : Nat) : ℚ)) / 10 = 45
  norm_num [show ((1 <<< 8) ||| 194 : Nat) = 450 from by decide]

/-- C2 counterexample: `parseDecibelData` stamps each Reading with
`time.Now()`, so two invocations on the same frame at different clock
instants yield Readings that differ (in the `timestamp` field), refuting
"bit-identical Readings, all fields included". -/
theorem C2_not_identical_counterexample :
    parseDecibelData [0x01, 0x3A, 0x40, 0, 0, 0, 0, 0] "2025-03-01 05:04:00 UTC" ≠
      parseDecibelData [0x01, 0x3A, 0x40, 0, 0, 0, 0, 0] "2025-03-01 05:04:01 UTC" := by
  intro h
  have h2 := congrArg DecibelReading.timestamp h
  exact absurd h2 (by decide)

/-- C2 (amended): the decoder is deterministic in the frame for every field
except the timestamp: two invocations of `parseDecibelData` on the same
frame agree on `measured`, `mode`, `freqMode`, and `range`; the `timestamp`
field is read from the wall clock at each invocation and may differ. -/
theorem C2_decode_deterministic (buf : List Nat) (t1 t2 : String) :
    (parseDecibelData buf t1).measured = (parseDecibelData buf t2).measured ∧
    (parseDecibelData buf t1).mode = (parseDecibelData buf t2).mode ∧
    (parseDecibelData buf t1).freqMode = (parseDecibelData buf t2).freqMode ∧
    (parseDecibelData buf t1).range = (parseDecibelData buf t2).range :=
  ⟨rfl, rfl, rfl, rfl⟩

/-- C3 counterexample: with a successful 8-byte write and an error-free read
returning only 3 bytes (fewer than a full 8-byte frame), the polling loop
still publishes a Reading, refuting "a Reading is produced only when the
device read returned a complete 8-byte frame". -/
theorem C3_short_read_publishes_counterexample :
    sendCommandFails 8 false = false ∧ 3 < 8 ∧
    (readDecibelIter true (List.replicate 8 0)
      ⟨8, false, false, 3, [0x01, 0x3A, 0x40], "t"⟩).published.isSome = true := by
  decide

/-- C3 (amended): in every polling-loop iteration, a Reading is produced and
handed to the sinks exactly when the capture-command write succeeded, the
device read returned no error, and the read returned at least one byte; only
a write failure, a read error, or a zero-byte read suppresses publication —
a short read of 1 to 7 bytes still publishes a Reading decoded from the
partially-updated buffer. -/
theorem C3_publish_iff_read_positive (c : Bool) (buf : List Nat) (inp : IterInput) :
    ((readDecibelIter c buf inp).published.isSome = true ↔
      (sendCommandFails inp.writeN inp.writeErr = false ∧ inp.readErr = false ∧
        0 < inp.readN)) ∧
    ((readDecibelIter c buf inp).csvRow.isSome = true ↔
      (c = true ∧ sendCommandFails inp.writeN inp.writeErr = false ∧ inp.readErr = false ∧
        0 < inp.readN)) := by
  unfold readDecibelIter
  split_ifs with h1 h2 h3 h4 <;> simp_all

set_option maxRecDepth 4000 in
/-- C4: for every byte value `b`, `parseFreqMode b` returns `"dBC"` if and
only if bit `0x10` or bit `0x80` of `b` is set, and returns `"dBA"`
otherwise. -/
theorem C4_freqMode_bits : ∀ b : Nat, b < 256 →
    (parseFreqMode b = "dBC" ↔ (b &&& 0x10 ≠ 0 ∨ b &&& 0x80 ≠ 0)) ∧
    ((b &&& 0x10 = 0 ∧ b &&& 0x80 = 0) → parseFreqMode b = "dBA") := by
  decide

/-- C4 witness: instance at `b = 0x91` (bit `0x10` set). -/
theorem C4_freqMode_bits_witness :
    (0x91 : Nat) < 256 ∧
    ((parseFreqMode 0x91 = "dBC" ↔
        ((0x91 : Nat) &&& 0x10 ≠ 0 ∨ (0x91 : Nat) &&& 0x80 ≠ 0)) ∧
      (((0x91 : Nat) &&& 0x10 = 0 ∧ (0x91 : Nat) &&& 0x80 = 0) →
        parseFreqMode 0x91 = "dBA")) :=
  ⟨by decide, C4_freqMode_bits 0x91 (by decide)⟩

set_option maxRecDepth 8000 in
/-- C5: for every byte value `b`, `parseRange b` maps the low nibble
`b &&& 0x0F` through exactly the table 0 ↦ "30-130", 1 ↦ "30-80",
2 ↦ "50-100", 3 ↦ "60-110", 4 ↦ "80-130", returns `"unknown"` for every
nibble value 5 through 15, and so always returns one of those five labels or
`"unknown"`. -/
theorem C5_range_table : ∀ b : Nat, b < 256 →
    (b &&& 0x0F = 0 → parseRange b = "30-130") ∧
    (b &&& 0x0F = 1 → parseRange b = "30-80") ∧
    (b &&& 0x0F = 2 → parseRange b = "50-100") ∧
    (b &&& 0x0F = 3 → parseRange b = "60-110") ∧
    (b &&& 0x0F = 4 → parseRange b = "80-130") ∧
    (5 ≤ b &&& 0x0F → parseRange b = "unknown") ∧
    parseRange b ∈ ["30-130", "30-80", "50-100", "60-110", "80-130", "unknown"] := by
  decide

/-- C5 witness: instance at `b = 0x12` (nibble 2). -/
theorem C5_range_table_witness :
    (0x12 : Nat) < 256 ∧
    (((0x12 : Nat) &&& 0x0F = 0 → parseRange 0x12 = "30-130") ∧
      ((0x12 : Nat) &&& 0x0F = 1 → parseRange 0x12 = "30-80") ∧
      ((0x12 : Nat) &&& 0x0F = 2 → parseRange 0x12 = "50-100") ∧
      ((0x12 : Nat) &&& 0x0F = 3 → parseRange 0x12 = "60-110") ∧
      ((0x12 : Nat) &&& 0x0F = 4 → parseRange 0x12 = "80-130") ∧
      (5 ≤ (0x12 : Nat) &&& 0x0F → parseRange 0x12 = "unknown") ∧
      parseRange 0x12 ∈ ["30-130", "30-80", "50-100", "60-110", "80-130", "unknown"]) :=
  ⟨by decide, C5_range_table 0x12 (by decide)⟩

/-- C6: for bytes `hi` and `lo` in frame positions 0 and 1, the decoded
`measured` equals the big-endian 16-bit value `256 * hi + lo` divided by 10,
exactly, as a rational with one implied decimal digit. -/
theorem C6_measured_exact (hi lo : Nat) (rest : List Nat) (t : String)
    (hhi : hi < 256) (hlo : lo < 256) :
    (parseDecibelData (hi :: lo :: rest) t).measured = ((256 * hi + lo : Nat) : ℚ) / 10 := by
  show ((((hi :: lo :: rest).getD 0 0 <<< 8) ||| ((hi :: lo :: rest).getD 1 0) : Nat) : ℚ) / 10 = _
  simp only [List.getD_cons_zero, List.getD_cons_succ]
  rw [shiftLeft_lor_byte hi lo hlo]

/-- C6 witness: `hi = 0x01`, `lo = 0x3A` gives raw 314 and measured 31.4. -/
theorem C6_measured_exact_witness :
    (parseDecibelData (0x01 :: 0x3A :: [0x40, 0, 0, 0, 0, 0]) "t").measured =
      ((256 * 0x01 + 0x3A : Nat) : ℚ) / 10 :=
  C6_measured_exact 0x01 0x3A [0x40, 0, 0, 0, 0, 0] "t" (by decide) (by decide)

end GM1356

namespace GM1356

/-- C7: logging N readings to a fresh path produces exactly one header row
`timestamp,measured,mode,freqMode,range` followed by the N data rows in
publication order; logging against an already-existing path appends the rows
without writing the header again; and the measured field of each row is
rendered with exactly one fractional digit. -/
theorem C7_csv_log :
    (∀ rs : List DecibelReading,
      logReadings none rs =
        ["timestamp", "measured", "mode", "freqMode", "range"] :: rs.map csvRowOf) ∧
    (∀ (prev : List (List String)) (rs : List DecibelReading),
      logReadings (some prev) rs = prev ++ rs.map csvRowOf) ∧
    (∀ raw : Nat,
      formatMeasured ((raw : ℚ) / 10) = toString (raw / 10) ++ "." ++ toString (raw % 10) ∧
      (toString (raw % 10)).length = 1) := by
  refine ⟨?_, ?_, ?_⟩
  · intro rs
    unfold logReadings
    rw [foldl_append_rows]
    simp [setupCSVLog, csvHeader]
  · intro prev rs
    unfold logReadings
    rw [foldl_append_rows]
    rfl
  · intro raw
    constructor
    · unfold formatMeasured
      have h1 : ((raw : ℚ) / 10) * 10 = (raw : ℚ) := by
        field_simp
      rw [h1]
      simp
    · have h10 : raw % 10 < 10 := Nat.mod_lt raw (by norm_num)
      exact (by decide : ∀ m : Nat, m < 10 → (toString m).length = 1) (raw % 10) h10

/-- C8: `sendCommand` fails exactly when the device write returns an error or
transfers a byte count different from 8; in the polling loop such a failure
skips the iteration with a diagnostic (nothing is published, no CSV row is
written, an error is logged) and the loop continues with the remaining
iterations unchanged. -/
theorem C8_send_failure_recoverable :
    (∀ (writeN : Nat) (writeErr : Bool),
      sendCommandFails writeN writeErr = true ↔ (writeErr = true ∨ writeN ≠ 8)) ∧
    (∀ (c : Bool) (buf : List Nat) (inp : IterInput) (rest : List IterInput),
      sendCommandFails inp.writeN inp.writeErr = true →
        (readDecibelIter c buf inp).published = none ∧
        (readDecibelIter c buf inp).csvRow = none ∧
        (readDecibelIter c buf inp).errorLogged = true ∧
        readDecibelLoop c buf (inp :: rest) = readDecibelLoop c buf rest) := by
  constructor
  · intro writeN writeErr
    simp [sendCommandFails]
  · intro c buf inp rest h
    refine ⟨?_, ?_, ?_, ?_⟩ <;> simp [readDecibelIter, readDecibelLoop, h]

/-- C8 witness: a 7-byte error-free write fails the send, and the iteration
with that write publishes nothing, logs an error, and the loop continues. -/
theorem C8_send_failure_recoverable_witness :
    sendCommandFails 7 false = true ∧
    (readDecibelIter true (List.replicate 8 0)
      ⟨7, false, false, 8, [1, 2, 3, 4, 5, 6, 7, 8], "t"⟩).published = none ∧
    (readDecibelIter true (List.replicate 8 0)
      ⟨7, false, false, 8, [1, 2, 3, 4, 5, 6, 7, 8], "t"⟩).csvRow = none ∧
    (readDecibelIter true (List.replicate 8 0)
      ⟨7, false, false, 8, [1, 2, 3, 4, 5, 6, 7, 8], "t"⟩).errorLogged = true ∧
    readDecibelLoop true (List.replicate 8 0)
        [⟨7, false, false, 8, [1, 2, 3, 4, 5, 6, 7, 8], "t"⟩] =
      readDecibelLoop true (List.replicate 8 0) [] :=
  ⟨by decide,
    C8_send_failure_recoverable.2 true (List.replicate 8 0)
      ⟨7, false, false, 8, [1, 2, 3, 4, 5, 6, 7, 8], "t"⟩ [] (by decide)⟩

/-- C9: a zero-length device read in a polling iteration (with a successful
command write and no read error) produces no Reading, writes no JSON record
and no CSV row, emits no error diagnostic, and the loop proceeds to the next
iteration with the same buffer. -/
theorem C9_zero_read_silent (c : Bool) (buf : List Nat) (inp : IterInput)
    (rest : List IterInput)
    (hsend : sendCommandFails inp.writeN inp.writeErr = false)
    (herr : inp.readErr = false) (hn : inp.readN = 0) :
    (readDecibelIter c buf inp).published = none ∧
    (readDecibelIter c buf inp).csvRow = none ∧
    (readDecibelIter c buf inp).errorLogged = false ∧
    readDecibelLoop c buf (inp :: rest) = readDecibelLoop c buf rest := by
  refine ⟨?_, ?_, ?_, ?_⟩ <;>
    simp [readDecibelIter, readDecibelLoop, fillBuf, hsend, herr, hn]

/-- C9 witness: instance with an 8-byte successful write and a zero-byte
error-free read. -/
theorem C9_zero_read_silent_witness :
    (readDecibelIter true (List.replicate 8 0) ⟨8, false, false, 0, [], "t"⟩).published = none ∧
    (readDecibelIter true (List.replicate 8 0) ⟨8, false, false, 0, [], "t"⟩).csvRow = none ∧
    (readDecibelIter true (List.replicate 8 0) ⟨8, false, false, 0, [], "t"⟩).errorLogged = false ∧
    readDecibelLoop true (List.replicate 8 0) [⟨8, false, false, 0, [], "t"⟩] =
      readDecibelLoop true (List.replicate 8 0) [] :=
  C9_zero_read_silent true (List.replicate 8 0) ⟨8, false, false, 0, [], "t"⟩ []
    (by decide) rfl rfl

/-- C10: `readCurrentMode` (after a successful capture-command send) treats a
read of fewer than 6 bytes like a read error, returning the triple
`("unknown", "unknown", "unknown")` together with an error; it returns a
non-error triple, decoded from byte 2 of the buffer, exactly when the read
succeeded with at least 6 bytes. -/
theorem C10_mode_probe_short_read (readErr : Bool) (readN : Nat) (readData : List Nat) :
    ((readErr = true ∨ readN < 6) →
      readCurrentMode false readErr readN readData =
        (("unknown", "unknown", "unknown"), true)) ∧
    (readErr = false → 6 ≤ readN →
      readCurrentMode false readErr readN readData =
        ((parseMode ((fillBuf (List.replicate 8 0) readData readN).getD 2 0),
          parseFreqMode ((fillBuf (List.replicate 8 0) readData readN).getD 2 0),
          parseRange ((fillBuf (List.replicate 8 0) readData readN).getD 2 0)), false)) := by
  constructor
  · intro h
    unfold readCurrentMode
    rw [if_neg (by simp), if_pos h]
  · intro h1 h2
    unfold readCurrentMode
    rw [if_neg (by simp), if_neg (by simp [h1]; omega)]

/-- C10 witness: a 3-byte read yields the unknown triple with an error, and
an error-free 8-byte read yields the decoded non-error triple. -/
theorem C10_mode_probe_short_read_witness :
    readCurrentMode false false 3 [1, 2, 3] = (("unknown", "unknown", "unknown"), true) ∧
    readCurrentMode false false 8 [0x01, 0x3A, 0x40, 0, 0, 0, 0, 0] =
      ((parseMode ((fillBuf (List.replicate 8 0) [0x01, 0x3A, 0x40, 0, 0, 0, 0, 0] 8).getD 2 0),
        parseFreqMode
          ((fillBuf (List.replicate 8 0) [0x01, 0x3A, 0x40, 0, 0, 0, 0, 0] 8).getD 2 0),
        parseRange
          ((fillBuf (List.replicate 8 0) [0x01, 0x3A, 0x40, 0, 0, 0, 0, 0] 8).getD 2 0)),
        false) :=
  ⟨(C10_mode_probe_short_read false 3 [1, 2, 3]).1 (Or.inr (by decide)),
    (C10_mode_probe_short_read false 8 [0x01, 0x3A, 0x40, 0, 0, 0, 0, 0]).2 rfl (by decide)⟩

end GM1356
